import Mathlib

/-!
Verification development for the overdue-debt risk-classification pipeline.

The Python sources are embedded shallowly:
pure functions become Lean functions, the mutable decision ledger becomes
explicit state passing over a list of records, the external LLM call becomes
an explicit outcome value (decoded JSON object, undecodable text, or a
transport failure), and wall-clock timestamps become explicit arguments.
Python floats are modelled as rationals, Python ints as Nat, and Python
dicts with possibly-missing keys as structures with Option fields.
-/

namespace DebtRisk

/-! ### Character and string helpers

Python lowercases and uppercases the relevant strings with str.lower and
str.upper; every string the program compares case-insensitively is ASCII
apart from the rupee sign, which has no case, so per-character ASCII
case mapping is a faithful model. -/

def lowerChar (c : Char) : Char :=
  if 'A' ≤ c ∧ c ≤ 'Z' then Char.ofNat (c.toNat + 32) else c

def upperChar (c : Char) : Char :=
  if 'a' ≤ c ∧ c ≤ 'z' then Char.ofNat (c.toNat - 32) else c

def strLower (s : String) : String := ⟨s.data.map lowerChar⟩

def strUpper (s : String) : String := ⟨s.data.map upperChar⟩

/-- The Python substring test `needle in hay`. -/
def containsSub (hay needle : String) : Prop := needle.data <:+: hay.data

instance (hay needle : String) : Decidable (containsSub hay needle) :=
  inferInstanceAs (Decidable (needle.data <:+: hay.data))

/-! ### Decimal rendering

Models Python decimal formatting of natural numbers: plain str,
zero-padding to a fixed width, and comma grouping. -/

/-- Little-endian decimal digits computed with explicit fuel so the kernel
can evaluate it; fuel n is always enough for n. -/
def digitsLEAux : Nat → Nat → List Nat
  | 0, _ => []
  | _ + 1, 0 => []
  | fuel + 1, n + 1 => ((n + 1) % 10) :: digitsLEAux fuel ((n + 1) / 10)

def digitsLE (n : Nat) : List Nat := digitsLEAux n n

/-- Big-endian decimal digits; empty for 0. -/
def digitsBE (n : Nat) : List Nat := (digitsLE n).reverse

def digitChar (d : Nat) : Char :=
  match d with
  | 0 => '0' | 1 => '1' | 2 => '2' | 3 => '3' | 4 => '4'
  | 5 => '5' | 6 => '6' | 7 => '7' | 8 => '8' | 9 => '9'
  | _ => '?'

def charDigit (c : Char) : Nat := c.toNat - 48

/-- Python str(n) for a natural number. -/
def natRepr (n : Nat) : String :=
  if n = 0 then "0" else ⟨(digitsBE n).map digitChar⟩

/-- The digit list underlying f-string formatting with format spec 05d. -/
def padDigits5 (n : Nat) : List Nat :=
  List.replicate (5 - (digitsBE n).length) 0 ++ digitsBE n

/-- Python format spec 05d: zero-pad the decimal representation to width 5. -/
def padLeft5 (n : Nat) : String := ⟨(padDigits5 n).map digitChar⟩

/-- Decimal digits of the most-significant group (width at most 3). -/
def padDigits3 (n : Nat) : List Nat :=
  List.replicate (3 - (digitsBE n).length) 0 ++ digitsBE n

/-- Group a little-endian digit list into threes, least significant first. -/
def chunk3 : List Nat → List (List Nat)
  | [] => []
  | a :: b :: c :: rest => [a, b, c] :: chunk3 rest
  | l => [l]

/-- Python comma grouping, format spec with a comma: f-string rendering of a
natural number with a thousands separator. -/
def fmtComma (n : Nat) : String :=
  if n = 0 then "0"
  else
    String.intercalate ","
      (((chunk3 (digitsLE n)).map (fun g => String.mk (g.reverse.map digitChar))).reverse)

/-- Round-half-to-even on rationals, the rounding Python applies when
formatting and with round(x, k); exact for the integer-valued inputs the
claims use. Works on the normalized numerator and denominator with integer
arithmetic only, so the kernel can evaluate it: with f the floor of q, the
fractional part compares to one half as 2 multiplied by the remainder
compares to the denominator. -/
def roundHalfEven (q : ℚ) : ℤ :=
  let n := q.num
  let d : ℤ := q.den
  let f := n.fdiv d
  let r2 := 2 * (n - f * d)
  if r2 < d then f
  else if d < r2 then f + 1
  else if f % 2 = 0 then f else f + 1

/-- Python format spec ",.0f" applied to a (nonnegative or negative) number:
round to zero decimals, then comma-group. -/
def fmtAmount0 (q : ℚ) : String :=
  let z := roundHalfEven q
  if z < 0 then "-" ++ fmtComma (-z).toNat else fmtComma z.toNat

/-- Python round(x, 1). -/
def round1 (q : ℚ) : ℚ := (roundHalfEven (10 * q) : ℚ) / 10

/-! ### Case records (src/backend/case_fetcher.py)

Only the fields the core reads; the case source is external and read-only. -/

structure RawCase where
  case_id : String
  customer_name : String
  amount : ℚ
  days_overdue : Nat
  past_attempts : Nat
  customer_type : String
  loan_type : String

/-- CaseFetcher.get_case_by_id: linear scan for the first case whose
case_id equals the requested one. -/
def getCaseById (cases : List RawCase) (case_id : String) : Option RawCase :=
  cases.find? (fun c => c.case_id == case_id)

/-! ### Preprocessor (src/backend/preprocessor.py) -/

/-- CasePreprocessor._categorize_amount with the thresholds 20000 / 100000 /
500000 fixed in CasePreprocessor.__init__. -/
def categorizeAmount (amount : ℚ) : String :=
  if amount < 20000 then "Low amount (below ₹20,000)"
  else if amount < 100000 then "Medium amount (₹20,000 - ₹1,00,000)"
  else if amount < 500000 then "High amount (₹1,00,000 - ₹5,00,000)"
  else "Very high amount (above ₹5,00,000 - specifically ₹" ++ fmtAmount0 amount ++ ")"

/-- CasePreprocessor._categorize_overdue with thresholds 15 / 45 / 90. -/
def categorizeOverdue (days : Nat) : String :=
  if days ≤ 15 then "Recently overdue (" ++ natRepr days ++ " days - within grace period)"
  else if days ≤ 45 then "Moderately overdue (" ++ natRepr days ++ " days - needs attention)"
  else if days ≤ 90 then "Long overdue (" ++ natRepr days ++ " days - serious concern)"
  else "Critically overdue (" ++ natRepr days ++ " days - immediate action required)"

/-- CasePreprocessor._categorize_attempts with thresholds 0 / 2 / 5. -/
def categorizeAttempts (attempts : Nat) : String :=
  if attempts = 0 then "No recovery attempts made yet"
  else if attempts ≤ 2 then "Few recovery attempts (" ++ natRepr attempts ++ " attempts)"
  else if attempts ≤ 5 then
    "Multiple failed recovery attempts (" ++ natRepr attempts ++ " attempts)"
  else
    "Exhaustive recovery attempts failed (" ++ natRepr attempts ++
      " attempts - customer unresponsive)"

/-- CasePreprocessor._categorize_customer_type. -/
def categorizeCustomerType (customer_type : String) : String :=
  if strLower customer_type = "business" then
    "Business customer (higher stakes, formal recovery process needed)"
  else
    "Individual customer (personal approach may work)"

/-- CasePreprocessor._categorize_loan_type: five known loan types, generic
fallback naming the loan type. -/
def categorizeLoanType (loan_type : String) : String :=
  if loan_type = "Credit Card" then "Credit card debt (unsecured, typically smaller amounts)"
  else if loan_type = "Personal Loan" then "Personal loan (unsecured, medium priority)"
  else if loan_type = "Home Loan" then "Home loan (secured by property, high recovery priority)"
  else if loan_type = "Vehicle Loan" then "Vehicle loan (secured by vehicle, can be repossessed)"
  else if loan_type = "Business Loan" then
    "Business loan (complex recovery, may involve legal action)"
  else loan_type ++ " (standard recovery process)"

structure PreprocessedCase where
  case_id : String
  customer_name : String
  raw_amount : ℚ
  raw_days_overdue : Nat
  raw_past_attempts : Nat
  amount_context : String
  overdue_context : String
  attempts_context : String
  customer_context : String
  loan_context : String

/-- CasePreprocessor.preprocess on a present case record. -/
def preprocess (c : RawCase) : PreprocessedCase :=
  { case_id := c.case_id
    customer_name := c.customer_name
    raw_amount := c.amount
    raw_days_overdue := c.days_overdue
    raw_past_attempts := c.past_attempts
    amount_context := categorizeAmount c.amount
    overdue_context := categorizeOverdue c.days_overdue
    attempts_context := categorizeAttempts c.past_attempts
    customer_context := categorizeCustomerType c.customer_type
    loan_context := categorizeLoanType c.loan_type }

/-- CasePreprocessor.generate_prompt_context: the fixed f-string template. -/
def generatePromptContext (p : PreprocessedCase) : String :=
  "\nCASE DETAILS FOR RISK ASSESSMENT:\n==================================\nCase ID: "
    ++ p.case_id
    ++ "\nCustomer: "
    ++ p.customer_name
    ++ "\n\nFINANCIAL CONTEXT:\n- Amount: "
    ++ p.amount_context
    ++ "\n- Loan Type: "
    ++ p.loan_context
    ++ "\n\nOVERDUE STATUS:\n- Duration: "
    ++ p.overdue_context
    ++ "\n\nRECOVERY HISTORY:\n- Past Attempts: "
    ++ p.attempts_context
    ++ "\n\nCUSTOMER PROFILE:\n- Type: "
    ++ p.customer_context
    ++ "\n==================================\n"

/-! ### Classification results (src/backend/gemini_client.py)

Python returns dicts; every code path populates risk_level, confidence,
reason and recommended_action, while the recovery fields are only present
on some paths, so they are Option fields. -/

structure RiskResult where
  risk_level : String
  confidence : ℚ
  reason : String
  recommended_action : String
  recovery_probability : Option String
  recovery_percentage : Option Nat
deriving DecidableEq

/-! ### Rule-based demo classifier (DemoGeminiClassifier) -/

def highRiskIndicators : List String :=
  ["critically overdue", "exhaustive recovery attempts", "very high amount",
   "immediate action required"]

def lowRiskIndicators : List String :=
  ["recently overdue", "no recovery attempts", "low amount", "within grace period"]

/-- The sum over the high-risk indicator list of case-insensitive substring
matches in the context. -/
def demoHighScore (caseContext : String) : Nat :=
  highRiskIndicators.countP (fun ind => decide (containsSub (strLower caseContext) ind))

/-- The sum over the low-risk indicator list of case-insensitive substring
matches in the context. -/
def demoLowScore (caseContext : String) : Nat :=
  lowRiskIndicators.countP (fun ind => decide (containsSub (strLower caseContext) ind))

/-- DemoGeminiClassifier.classify_risk. -/
def demoClassifyRisk (caseContext : String) : RiskResult :=
  if 2 ≤ demoHighScore caseContext then
    { risk_level := "HIGH"
      confidence := 0.85
      recovery_probability := some "LOW"
      recovery_percentage := some 30
      reason := "Case shows multiple high-risk indicators including long overdue duration and multiple failed recovery attempts."
      recommended_action := "Escalate to legal team for formal notice. Consider asset recovery if secured loan." }
  else if 2 ≤ demoLowScore caseContext then
    { risk_level := "LOW"
      confidence := 0.90
      recovery_probability := some "VERY HIGH"
      recovery_percentage := some 85
      reason := "Case is recently overdue with low amount. Customer likely to pay with gentle reminder."
      recommended_action := "Send automated payment reminder. Schedule follow-up call in 3 days." }
  else
    { risk_level := "MEDIUM"
      confidence := 0.75
      recovery_probability := some "MODERATE"
      recovery_percentage := some 55
      reason := "Case shows mixed indicators. Moderate attention required with proactive follow-up."
      recommended_action := "Assign to recovery agent for personal follow-up. Offer payment plan options." }

/-! ### LLM-backed classifier (GeminiRiskClassifier)

The external service returns unstructured text. JSON decoding itself is not
re-implemented; a ModelResponse carries the raw response text together with
the outcome of fence-stripping plus JSON decoding: some decoded object, or
none when decoding raises. A transport or service failure inside
classify_risk is the error case of an Except value. -/

/-- A JSON object response with possibly-missing keys, restricted to the keys
the parser reads. -/
structure RawResponse where
  risk_level : Option String
  confidence : Option ℚ
  recovery_probability : Option String
  recovery_percentage : Option Nat
  reason : Option String
  recommended_action : Option String
deriving DecidableEq

structure ModelResponse where
  raw : String
  decoded : Option RawResponse

/-- The fixed probability-to-percentage table prob_map in
GeminiRiskClassifier._parse_response; none models a key miss, resolved with
default 50 at the call site, like dict.get. -/
def probMap (p : String) : Option Nat :=
  if p = "VERY HIGH" then some 85
  else if p = "HIGH" then some 70
  else if p = "MODERATE" then some 50
  else if p = "LOW" then some 30
  else if p = "VERY LOW" then some 15
  else none

/-- GeminiRiskClassifier._extract_risk_level: keyword scan of the uppercased
text. -/
def extractRiskLevel (text : String) : String :=
  if containsSub (strUpper text) "HIGH RISK" ∨ containsSub (strUpper text) "HIGH" then "HIGH"
  else if containsSub (strUpper text) "MEDIUM RISK" ∨ containsSub (strUpper text) "MEDIUM" then
    "MEDIUM"
  else if containsSub (strUpper text) "LOW RISK" ∨ containsSub (strUpper text) "LOW" then "LOW"
  else "UNKNOWN"

/-- The inference of a missing recovery_probability from the uppercased risk
level in GeminiRiskClassifier._parse_response. -/
def inferProbability (risk : String) : String :=
  if risk = "LOW" then "HIGH" else if risk = "MEDIUM" then "MODERATE" else "LOW"

/-- GeminiRiskClassifier._parse_response: on a decoded JSON object, fill the
missing fields one step at a time exactly as the source mutates the dict; on
a decode failure, fall back to heuristic extraction from the raw text. -/
def parseResponse (resp : ModelResponse) : RiskResult :=
  match resp.decoded with
  | some r =>
    let risk_level := r.risk_level.getD "Unknown"
    let reason := r.reason.getD "No explanation provided"
    let confidence := r.confidence.getD 0.8
    let recommended_action := r.recommended_action.getD "Follow standard recovery procedure"
    let recovery_probability :=
      match r.recovery_probability with
      | some p => p
      | none => inferProbability (strUpper risk_level)
    let recovery_percentage :=
      match r.recovery_percentage with
      | some n => n
      | none => (probMap recovery_probability).getD 50
    { risk_level := risk_level
      confidence := confidence
      reason := reason
      recommended_action := recommended_action
      recovery_probability := some recovery_probability
      recovery_percentage := some recovery_percentage }
  | none =>
    { risk_level := extractRiskLevel resp.raw
      confidence := 0.7
      reason := ⟨resp.raw.data.take 200⟩
      recommended_action := "Manual review recommended"
      recovery_probability := none
      recovery_percentage := none }

/-- GeminiRiskClassifier.classify_risk: the try/except around the API call
and the parse; any raised failure is caught and converted into the sentinel
ERROR result, so the caller always receives a result. -/
def classifyRisk (outcome : Except String ModelResponse) : RiskResult :=
  match outcome with
  | .error msg =>
    { risk_level := "ERROR"
      confidence := 0.0
      reason := "API Error: " ++ msg
      recommended_action := "Manual review required"
      recovery_probability := none
      recovery_percentage := none }
  | .ok resp => parseResponse resp

/-! ### Decision ledger (src/backend/result_storage.py)

The in-memory list self.results is the state; the JSON file mirrors it and
is rewritten on every append, so the list is the authoritative embedding.
datetime.now() becomes an explicit timestamp argument. -/

structure InputData where
  amount : ℚ
  days_overdue : Nat
  past_attempts : Nat
  customer_type : String
  loan_type : String
deriving DecidableEq

structure AiDecision where
  risk_level : String
  confidence : ℚ
  reason : String
  recommended_action : String
deriving DecidableEq

structure DecisionRecord where
  decision_id : String
  case_id : String
  customer_name : String
  timestamp : String
  input_data : InputData
  ai_decision : AiDecision
  status : String
deriving DecidableEq

/-- The decision identifier f-string: DEC followed by the number zero-padded
to five digits. -/
def decisionId (n : Nat) : String := "DEC" ++ padLeft5 n

/-- ResultStorage.store_decision: build the record, append it, return both
the record and the new ledger state. -/
def storeDecision (results : List DecisionRecord) (case_id customer_name timestamp : String)
    (raw_case_data : RawCase) (classification_result : RiskResult) :
    DecisionRecord × List DecisionRecord :=
  let record : DecisionRecord :=
    { decision_id := decisionId (results.length + 1)
      case_id := case_id
      customer_name := customer_name
      timestamp := timestamp
      input_data :=
        { amount := raw_case_data.amount
          days_overdue := raw_case_data.days_overdue
          past_attempts := raw_case_data.past_attempts
          customer_type := raw_case_data.customer_type
          loan_type := raw_case_data.loan_type }
      ai_decision :=
        { risk_level := classification_result.risk_level
          confidence := classification_result.confidence
          reason := classification_result.reason
          recommended_action := classification_result.recommended_action }
      status := "pending_review" }
  (record, results ++ [record])

/-- ResultStorage.get_decisions_by_risk. -/
def getDecisionsByRisk (results : List DecisionRecord) (risk_level : String) :
    List DecisionRecord :=
  results.filter (fun d => d.ai_decision.risk_level == risk_level)

/-- ResultStorage.get_statistics returns a dict that has the percentage keys
only when the ledger is non-empty; Option fields model the missing keys. -/
structure Stats where
  total : Nat
  high : Nat
  medium : Nat
  low : Nat
  high_percentage : Option ℚ
  medium_percentage : Option ℚ
  low_percentage : Option ℚ
deriving DecidableEq

/-- ResultStorage.get_statistics. -/
def getStatistics (results : List DecisionRecord) : Stats :=
  let total := results.length
  if total = 0 then
    { total := 0, high := 0, medium := 0, low := 0
      high_percentage := none, medium_percentage := none, low_percentage := none }
  else
    let high := (getDecisionsByRisk results "HIGH").length
    let medium := (getDecisionsByRisk results "MEDIUM").length
    let low := (getDecisionsByRisk results "LOW").length
    { total := total, high := high, medium := medium, low := low
      high_percentage := some (round1 ((high : ℚ) / (total : ℚ) * 100))
      medium_percentage := some (round1 ((medium : ℚ) / (total : ℚ) * 100))
      low_percentage := some (round1 ((low : ℚ) / (total : ℚ) * 100)) }

/-- ResultStorage.clear_all. -/
def clearAll : List DecisionRecord := []

/-- One store_decision call of a ledger history: the arguments of the call. -/
structure StoreArgs where
  case_id : String
  customer_name : String
  timestamp : String
  raw_case_data : RawCase
  classification_result : RiskResult

/-- Replay a sequence of store_decision calls on top of a ledger state. -/
def applyStores (results : List DecisionRecord) (calls : List StoreArgs) :
    List DecisionRecord :=
  calls.foldl
    (fun led a =>
      (storeDecision led a.case_id a.customer_name a.timestamp a.raw_case_data
        a.classification_result).2)
    results

/-- The ledger history of a single-writer store that begins empty (the state
after construction on a fresh file, or after clear_all). -/
def ledgerHistory (calls : List StoreArgs) : List DecisionRecord := applyStores clearAll calls

/-! ### Pipeline orchestrator (src/backend/pipeline.py)

The classifier is a parameter (the two variants share the contract); it is a
total function, which is exactly the containment policy of section 4.2 of
the specification: classification always returns a result. The result dict
of process_case becomes a structure, and the ledger state is threaded
explicitly. The orchestrator itself is a total Lean function, so it never
propagates an exception. -/

structure PipelineResult where
  success : Bool
  case_id : String
  case_data : Option RawCase
  processed_context : Option String
  classification : Option RiskResult
  decision_record : Option DecisionRecord
  error : Option String

/-- RiskClassificationPipeline.process_case. -/
def processCase (cases : List RawCase) (results : List DecisionRecord)
    (classify : String → RiskResult) (case_id timestamp : String) (save_result : Bool) :
    PipelineResult × List DecisionRecord :=
  match getCaseById cases case_id with
  | none =>
    ({ success := false
       case_id := case_id
       case_data := none
       processed_context := none
       classification := none
       decision_record := none
       error := some ("Case " ++ case_id ++ " not found in database") }, results)
  | some case_data =>
    let processed := preprocess case_data
    let context := generatePromptContext processed
    let classification := classify context
    if save_result then
      let stored := storeDecision results case_id case_data.customer_name timestamp
        case_data classification
      ({ success := true
         case_id := case_id
         case_data := some case_data
         processed_context := some context
         classification := some classification
         decision_record := some stored.1
         error := none }, stored.2)
    else
      ({ success := true
         case_id := case_id
         case_data := some case_data
         processed_context := some context
         classification := some classification
         decision_record := none
         error := none }, results)

/-! ### Concrete sample values used by witness theorems -/

def sampleDecodedResponse : RawResponse :=
  ⟨some "MEDIUM", some 0.9, some "HIGH", none, some "ok", some "act"⟩

def sampleCase : RawCase :=
  ⟨"CASE001", "Acme Traders", 250000, 60, 3, "Business", "Business Loan"⟩

def sampleResult : RiskResult :=
  ⟨"HIGH", 0.9, "serious", "escalate", some "LOW", some 30⟩

def sampleCall : StoreArgs :=
  ⟨"CASE001", "Acme Traders", "2024-01-01T00:00:00", sampleCase, sampleResult⟩

def sampleHighRecord : DecisionRecord :=
  ⟨"DEC00001", "CASE003", "ABC Enterprises", "2024-01-01T00:00:00",
    ⟨500000, 120, 8, "Business", "Business Loan"⟩,
    ⟨"HIGH", 0.92, "High amount with extended overdue period.", "Escalate to legal team."⟩,
    "pending_review"⟩

def sampleErrorRecord : DecisionRecord :=
  ⟨"DEC00001", "CASE009", "Vertex Supplies", "2024-01-01T00:00:00",
    ⟨90000, 30, 2, "Business", "Personal Loan"⟩,
    ⟨"ERROR", 0, "API Error: service unavailable", "Manual review required"⟩,
    "pending_review"⟩

/-! ### Auxiliary lemmas: decimal rendering and identifier injectivity -/

theorem digitsLEAux_ofDigits : ∀ (fuel n : Nat), n ≤ fuel →
    Nat.ofDigits 10 (digitsLEAux fuel n) = n := by
  intro fuel
  induction fuel with
  | zero => intro n hn; interval_cases n; simp [digitsLEAux, Nat.ofDigits]
  | succ fuel ih =>
    intro n hn
    match n with
    | 0 => simp [digitsLEAux, Nat.ofDigits]
    | m + 1 =>
      have hdiv : (m + 1) / 10 ≤ fuel := by
        have : (m + 1) / 10 < m + 1 := Nat.div_lt_self (Nat.succ_pos m) (by omega)
        omega
      simp [digitsLEAux, Nat.ofDigits_cons, ih _ hdiv]
      omega

theorem mem_digitsLEAux_lt : ∀ (fuel n d : Nat), d ∈ digitsLEAux fuel n → d < 10 := by
  intro fuel
  induction fuel with
  | zero => intro n d h; simp [digitsLEAux] at h
  | succ fuel ih =>
    intro n d h
    match n with
    | 0 => simp [digitsLEAux] at h
    | m + 1 =>
      simp only [digitsLEAux, List.mem_cons] at h
      rcases h with h | h
      · subst h; exact Nat.mod_lt _ (by omega)
      · exact ih _ _ h

theorem ofDigits_digitsLE (n : Nat) : Nat.ofDigits 10 (digitsLE n) = n :=
  digitsLEAux_ofDigits n n le_rfl

theorem mem_padDigits5_lt (n d : Nat) (h : d ∈ padDigits5 n) : d < 10 := by
  unfold padDigits5 digitsBE at h
  rcases List.mem_append.mp h with h | h
  · have := List.eq_of_mem_replicate h; omega
  · exact mem_digitsLEAux_lt _ _ _ (List.mem_reverse.mp h)

theorem ofDigits_replicate_zero : ∀ k : Nat, Nat.ofDigits 10 (List.replicate k 0) = 0 := by
  intro k
  induction k with
  | zero => simp [Nat.ofDigits]
  | succ k ih => simp [List.replicate, Nat.ofDigits_cons, ih]

theorem ofDigits_reverse_padDigits5 (n : Nat) :
    Nat.ofDigits 10 (padDigits5 n).reverse = n := by
  unfold padDigits5 digitsBE
  rw [List.reverse_append, List.reverse_reverse, List.reverse_replicate,
    Nat.ofDigits_append, ofDigits_digitsLE, ofDigits_replicate_zero]
  simp

theorem charDigit_digitChar : ∀ d < 10, charDigit (digitChar d) = d := by decide

theorem map_digitChar_inj (l₁ l₂ : List Nat) (h₁ : ∀ d ∈ l₁, d < 10) (h₂ : ∀ d ∈ l₂, d < 10)
    (h : l₁.map digitChar = l₂.map digitChar) : l₁ = l₂ := by
  have hmm := congrArg (List.map charDigit) h
  rw [List.map_map, List.map_map] at hmm
  have e₁ : l₁.map (charDigit ∘ digitChar) = l₁ := by
    rw [show l₁.map (charDigit ∘ digitChar) = l₁.map id from
      List.map_congr_left (fun a ha => charDigit_digitChar a (h₁ a ha)), List.map_id]
  have e₂ : l₂.map (charDigit ∘ digitChar) = l₂ := by
    rw [show l₂.map (charDigit ∘ digitChar) = l₂.map id from
      List.map_congr_left (fun a ha => charDigit_digitChar a (h₂ a ha)), List.map_id]
  rwa [e₁, e₂] at hmm

theorem padLeft5_inj (a b : Nat) (h : padLeft5 a = padLeft5 b) : a = b := by
  have hd : (padDigits5 a).map digitChar = (padDigits5 b).map digitChar :=
    congrArg String.data h
  have hp : padDigits5 a = padDigits5 b :=
    map_digitChar_inj _ _ (mem_padDigits5_lt a) (mem_padDigits5_lt b) hd
  have hv := congrArg (fun l => Nat.ofDigits 10 l.reverse) hp
  simpa [ofDigits_reverse_padDigits5] using hv

theorem decisionId_inj (a b : Nat) (h : decisionId a = decisionId b) : a = b := by
  apply padLeft5_inj
  have hd := congrArg String.data h
  simp only [decisionId, String.data_append] at hd
  exact congrArg String.mk (List.append_cancel_left hd)

/-! ### Auxiliary lemmas: substring matching -/

/-- A needle found in the lowercased middle piece is found in the lowercased
whole string. -/
theorem containsSub_strLower_of_infix {t seg : String} (needle : String)
    (hseg : containsSub (strLower seg) needle) (h : seg.data <:+: t.data) :
    containsSub (strLower t) needle :=
  hseg.trans (h.map lowerChar)

/-- Finding a longer needle implies finding any needle contained in it. -/
theorem containsSub_of_needle_infix {s n₁ n₂ : String} (hn : n₂.data <:+: n₁.data)
    (h : containsSub s n₁) : containsSub s n₂ :=
  hn.trans h

/-- Exhibits the middle addend of a three-part append decomposition as an
infix at the character-data level. -/
theorem infix_of_data_eq {t x y z : String} (h : t.data = x.data ++ (y.data ++ z.data)) :
    y.data <:+: t.data := by
  rw [h]; exact List.infix_append' _ _ _

/-! ### Auxiliary lemmas: demo classifier branch shapes -/

theorem demoClassifyRisk_of_high {ctx : String} (h : 2 ≤ demoHighScore ctx) :
    demoClassifyRisk ctx =
      { risk_level := "HIGH"
        confidence := 0.85
        recovery_probability := some "LOW"
        recovery_percentage := some 30
        reason := "Case shows multiple high-risk indicators including long overdue duration and multiple failed recovery attempts."
        recommended_action := "Escalate to legal team for formal notice. Consider asset recovery if secured loan." } := by
  rw [demoClassifyRisk, if_pos h]

theorem demoClassifyRisk_of_low {ctx : String} (h₁ : demoHighScore ctx < 2)
    (h₂ : 2 ≤ demoLowScore ctx) :
    demoClassifyRisk ctx =
      { risk_level := "LOW"
        confidence := 0.90
        recovery_probability := some "VERY HIGH"
        recovery_percentage := some 85
        reason := "Case is recently overdue with low amount. Customer likely to pay with gentle reminder."
        recommended_action := "Send automated payment reminder. Schedule follow-up call in 3 days." } := by
  rw [demoClassifyRisk, if_neg (by omega), if_pos h₂]

theorem demoClassifyRisk_of_medium {ctx : String} (h₁ : demoHighScore ctx < 2)
    (h₂ : demoLowScore ctx < 2) :
    demoClassifyRisk ctx =
      { risk_level := "MEDIUM"
        confidence := 0.75
        recovery_probability := some "MODERATE"
        recovery_percentage := some 55
        reason := "Case shows mixed indicators. Moderate attention required with proactive follow-up."
        recommended_action := "Assign to recovery agent for personal follow-up. Offer payment plan options." } := by
  rw [demoClassifyRisk, if_neg (by omega), if_neg (by omega)]

/-! ### Auxiliary lemmas: heuristic extraction, scenario context, ledger replay -/

/-- The or-conditions of _extract_risk_level collapse to a plain keyword
scan, because the phrase HIGH RISK contains HIGH, and likewise for the
other two levels. -/
theorem extractRiskLevel_scan (text : String) :
    extractRiskLevel text =
      if containsSub (strUpper text) "HIGH" then "HIGH"
      else if containsSub (strUpper text) "MEDIUM" then "MEDIUM"
      else if containsSub (strUpper text) "LOW" then "LOW"
      else "UNKNOWN" := by
  have hH : containsSub (strUpper text) "HIGH RISK" → containsSub (strUpper text) "HIGH" :=
    fun h => containsSub_of_needle_infix (by decide) h
  have hM : containsSub (strUpper text) "MEDIUM RISK" →
      containsSub (strUpper text) "MEDIUM" :=
    fun h => containsSub_of_needle_infix (by decide) h
  have hL : containsSub (strUpper text) "LOW RISK" → containsSub (strUpper text) "LOW" :=
    fun h => containsSub_of_needle_infix (by decide) h
  unfold extractRiskLevel
  simp only [or_iff_right_of_imp hH, or_iff_right_of_imp hM, or_iff_right_of_imp hL]

/-- A case with amount 600000, 150 days overdue and 9 past attempts renders a
context whose overdue segment alone matches two high-risk indicators,
whatever the identifier, name, customer type and loan type are. -/
theorem demoHighScore_scenario (cid cname ctype ltype : String) :
    2 ≤ demoHighScore (generatePromptContext (preprocess
      { case_id := cid, customer_name := cname, amount := 600000, days_overdue := 150,
        past_attempts := 9, customer_type := ctype, loan_type := ltype })) := by
  have hA : categorizeAmount 600000 =
      "Very high amount (above ₹5,00,000 - specifically ₹600,000)" := by decide
  have hO : categorizeOverdue 150 =
      "Critically overdue (150 days - immediate action required)" := by decide
  have hT : categorizeAttempts 9 =
      "Exhaustive recovery attempts failed (9 attempts - customer unresponsive)" := by decide
  set t := generatePromptContext (preprocess
      { case_id := cid, customer_name := cname, amount := 600000, days_overdue := 150,
        past_attempts := 9, customer_type := ctype, loan_type := ltype }) with ht
  have hdataO : t.data =
      ("\nCASE DETAILS FOR RISK ASSESSMENT:\n==================================\nCase ID: "
        ++ cid ++ "\nCustomer: " ++ cname ++ "\n\nFINANCIAL CONTEXT:\n- Amount: "
        ++ "Very high amount (above ₹5,00,000 - specifically ₹600,000)"
        ++ "\n- Loan Type: " ++ categorizeLoanType ltype
        ++ "\n\nOVERDUE STATUS:\n- Duration: ").data ++
      (("Critically overdue (150 days - immediate action required)").data ++
        ("\n\nRECOVERY HISTORY:\n- Past Attempts: "
          ++ "Exhaustive recovery attempts failed (9 attempts - customer unresponsive)"
          ++ "\n\nCUSTOMER PROFILE:\n- Type: " ++ categorizeCustomerType ctype
          ++ "\n==================================\n").data) := by
    simp only [ht, generatePromptContext, preprocess, hA, hO, hT, String.data_append,
      List.append_assoc]
  have hinfO := infix_of_data_eq hdataO
  have h1 : containsSub (strLower t) "critically overdue" :=
    containsSub_strLower_of_infix _ (by decide) hinfO
  have h2 : containsSub (strLower t) "immediate action required" :=
    containsSub_strLower_of_infix _ (by decide) hinfO
  simp only [demoHighScore, highRiskIndicators, List.countP_cons, List.countP_nil]
  rw [decide_eq_true h1, decide_eq_true h2]
  simp only [if_true]
  split <;> split <;> omega

/-- Replaying store_decision calls on any starting ledger: entries below the
starting length are untouched, entries from the starting length onward carry
the sequential identifier of their position plus one. -/
theorem applyStores_decision_id (calls : List StoreArgs) :
    ∀ (led : List DecisionRecord) (i : Nat) (hi : i < (applyStores led calls).length),
      ((applyStores led calls).get ⟨i, hi⟩).decision_id =
        if h : i < led.length then (led.get ⟨i, h⟩).decision_id else decisionId (i + 1) := by
  induction calls with
  | nil =>
    intro led i hi
    simp only [applyStores, List.foldl_nil] at hi ⊢
    rw [dif_pos hi]
  | cons a calls ih =>
    intro led i hi
    refine (ih (led ++ [(storeDecision led a.case_id a.customer_name a.timestamp
      a.raw_case_data a.classification_result).1]) i hi).trans ?_
    by_cases h₁ : i < led.length
    · have h₂ : i < (led ++ [(storeDecision led a.case_id a.customer_name a.timestamp
          a.raw_case_data a.classification_result).1]).length := by
        simp; omega
      rw [dif_pos h₂, dif_pos h₁]
      simp [List.getElem_append_left h₁]
    · by_cases h₀ : i = led.length
      · subst h₀
        have h₂ : led.length < (led ++ [(storeDecision led a.case_id a.customer_name
            a.timestamp a.raw_case_data a.classification_result).1]).length := by simp
        rw [dif_pos h₂, dif_neg h₁]
        simp [List.getElem_append_right (Nat.le_refl led.length)]
        rfl
      · have h₂ : ¬ i < (led ++ [(storeDecision led a.case_id a.customer_name a.timestamp
            a.raw_case_data a.classification_result).1]).length := by
          simp; omega
        rw [dif_neg h₂, dif_neg h₁]

/-- In a ledger built by a single writer from the empty state, the record at
position i carries the sequential decision identifier i plus one. -/
theorem ledgerHistory_decision_id (calls : List StoreArgs) (i : Nat)
    (hi : i < (ledgerHistory calls).length) :
    ((ledgerHistory calls).get ⟨i, hi⟩).decision_id = decisionId (i + 1) := by
  have h := applyStores_decision_id calls [] i hi
  simpa [ledgerHistory, clearAll] using h

/-- The three per-level filters plus the records matching none of the three
levels partition the ledger. -/
theorem count_partition (led : List DecisionRecord) :
    (getDecisionsByRisk led "HIGH").length + (getDecisionsByRisk led "MEDIUM").length +
      (getDecisionsByRisk led "LOW").length +
      led.countP (fun d => !(d.ai_decision.risk_level == "HIGH" ||
        d.ai_decision.risk_level == "MEDIUM" || d.ai_decision.risk_level == "LOW")) =
      led.length := by
  induction led with
  | nil => rfl
  | cons d t ih =>
    simp only [getDecisionsByRisk, List.filter_cons, List.countP_cons, List.length_cons] at *
    by_cases h1 : d.ai_decision.risk_level = "HIGH" <;>
      by_cases h2 : d.ai_decision.risk_level = "MEDIUM" <;>
        by_cases h3 : d.ai_decision.risk_level = "LOW" <;>
          simp_all <;> omega

/-! ### Claim theorems -/

/-- C1: The rule-based classifier counts case-insensitive substring matches
of the rendered context against a fixed list of 4 high-risk phrases and a
fixed list of 4 low-risk phrases; at least 2 high-risk matches give HIGH
with confidence 0.85, recovery percentage 30 and recovery probability LOW;
otherwise at least 2 low-risk matches give LOW with confidence 0.90,
recovery percentage 85 and recovery probability VERY HIGH; otherwise MEDIUM
with confidence 0.75, recovery percentage 55 and recovery probability
MODERATE. It is a total function, hence deterministic and never failing.
In particular, for any case with amount 600000, 150 days overdue and 9 past
attempts, classifying the rendered context yields HIGH with
confidence 0.85. -/
theorem rule_based_classifier_spec :
    highRiskIndicators.length = 4 ∧ lowRiskIndicators.length = 4 ∧
    (∀ ctx : String, 2 ≤ demoHighScore ctx →
      (demoClassifyRisk ctx).risk_level = "HIGH" ∧
      (demoClassifyRisk ctx).confidence = 0.85 ∧
      (demoClassifyRisk ctx).recovery_percentage = some 30 ∧
      (demoClassifyRisk ctx).recovery_probability = some "LOW") ∧
    (∀ ctx : String, demoHighScore ctx < 2 → 2 ≤ demoLowScore ctx →
      (demoClassifyRisk ctx).risk_level = "LOW" ∧
      (demoClassifyRisk ctx).confidence = 0.90 ∧
      (demoClassifyRisk ctx).recovery_percentage = some 85 ∧
      (demoClassifyRisk ctx).recovery_probability = some "VERY HIGH") ∧
    (∀ ctx : String, demoHighScore ctx < 2 → demoLowScore ctx < 2 →
      (demoClassifyRisk ctx).risk_level = "MEDIUM" ∧
      (demoClassifyRisk ctx).confidence = 0.75 ∧
      (demoClassifyRisk ctx).recovery_percentage = some 55 ∧
      (demoClassifyRisk ctx).recovery_probability = some "MODERATE") ∧
    (∀ cid cname ctype ltype : String,
      (demoClassifyRisk (generatePromptContext (preprocess
        { case_id := cid, customer_name := cname, amount := 600000, days_overdue := 150,
          past_attempts := 9, customer_type := ctype,
          loan_type := ltype }))).risk_level = "HIGH" ∧
      (demoClassifyRisk (generatePromptContext (preprocess
        { case_id := cid, customer_name := cname, amount := 600000, days_overdue := 150,
          past_attempts := 9, customer_type := ctype,
          loan_type := ltype }))).confidence = 0.85) := by
  refine ⟨rfl, rfl, ?_, ?_, ?_, ?_⟩
  · intro ctx h; rw [demoClassifyRisk_of_high h]; exact ⟨rfl, rfl, rfl, rfl⟩
  · intro ctx h₁ h₂; rw [demoClassifyRisk_of_low h₁ h₂]; exact ⟨rfl, rfl, rfl, rfl⟩
  · intro ctx h₁ h₂; rw [demoClassifyRisk_of_medium h₁ h₂]; exact ⟨rfl, rfl, rfl, rfl⟩
  · intro cid cname ctype ltype
    rw [demoClassifyRisk_of_high (demoHighScore_scenario cid cname ctype ltype)]
    exact ⟨rfl, rfl⟩

/-- C1 witness: a concrete context with two low-risk matches and no
high-risk match is classified LOW by the second branch of the theorem. -/
theorem rule_based_classifier_spec_witness :
    demoHighScore "recently overdue case, low amount, first reminder" < 2 ∧
    2 ≤ demoLowScore "recently overdue case, low amount, first reminder" ∧
    (demoClassifyRisk "recently overdue case, low amount, first reminder").risk_level =
      "LOW" :=
  ⟨by decide, by decide,
   (rule_based_classifier_spec.2.2.2.1 "recently overdue case, low amount, first reminder"
      (by decide) (by decide)).1⟩

/-- C2: Amount categorization is a pure function of the amount with exact
bucket boundaries: below 20000 Low, from 20000 below 100000 Medium, from
100000 below 500000 High, from 500000 on Very high with the exact value in
the text; each boundary value belongs to the bucket whose range includes it
on the left. -/
theorem amount_categorization_buckets :
    (∀ a : ℚ, a < 20000 → categorizeAmount a = "Low amount (below ₹20,000)") ∧
    (∀ a : ℚ, 20000 ≤ a → a < 100000 →
      categorizeAmount a = "Medium amount (₹20,000 - ₹1,00,000)") ∧
    (∀ a : ℚ, 100000 ≤ a → a < 500000 →
      categorizeAmount a = "High amount (₹1,00,000 - ₹5,00,000)") ∧
    (∀ a : ℚ, 500000 ≤ a → categorizeAmount a =
      "Very high amount (above ₹5,00,000 - specifically ₹" ++ fmtAmount0 a ++ ")") ∧
    categorizeAmount 20000 = "Medium amount (₹20,000 - ₹1,00,000)" ∧
    categorizeAmount 100000 = "High amount (₹1,00,000 - ₹5,00,000)" ∧
    categorizeAmount 500000 = "Very high amount (above ₹5,00,000 - specifically ₹500,000)" := by
  refine ⟨?_, ?_, ?_, ?_, by decide, by decide, by decide⟩
  · intro a h; rw [categorizeAmount, if_pos h]
  · intro a h₁ h₂
    rw [categorizeAmount, if_neg (by linarith), if_pos h₂]
  · intro a h₁ h₂
    rw [categorizeAmount, if_neg (by linarith), if_neg (by linarith), if_pos h₂]
  · intro a h
    rw [categorizeAmount, if_neg (by linarith), if_neg (by linarith), if_neg (by linarith)]

/-- C2 witness: the four buckets applied at one concrete amount each. -/
theorem amount_categorization_buckets_witness :
    categorizeAmount 15000 = "Low amount (below ₹20,000)" ∧
    categorizeAmount 50000 = "Medium amount (₹20,000 - ₹1,00,000)" ∧
    categorizeAmount 200000 = "High amount (₹1,00,000 - ₹5,00,000)" ∧
    categorizeAmount 700000 =
      "Very high amount (above ₹5,00,000 - specifically ₹" ++ fmtAmount0 700000 ++ ")" :=
  ⟨amount_categorization_buckets.1 15000 (by norm_num),
   amount_categorization_buckets.2.1 50000 (by norm_num) (by norm_num),
   amount_categorization_buckets.2.2.1 200000 (by norm_num) (by norm_num),
   amount_categorization_buckets.2.2.2.1 700000 (by norm_num)⟩

/-- C3 counterexample: a non-JSON response yields a parsed result with no
recovery_probability and no recovery_percentage, so not every result of
classify_risk contains all six fields as the claim states. -/
theorem classifier_fallbacks_lack_recovery_fields :
    (classifyRisk (Except.ok ⟨"The case looks HIGH risk overall.", none⟩)).recovery_percentage
        = none ∧
    (classifyRisk (Except.ok ⟨"The case looks HIGH risk overall.", none⟩)).recovery_probability
        = none :=
  ⟨rfl, rfl⟩

/-- C3 (amended): every result of classify_risk on a decoded JSON object
contains all six fields completed by the fixed policy, with missing
risk_level going to Unknown, missing confidence to 0.8, missing
recommended_action to the generic fallback, missing recovery_probability
inferred from the risk level (LOW to HIGH, MEDIUM to MODERATE, else LOW),
and missing recovery_percentage looked up from the fixed table
(VERY HIGH 85, HIGH 70, MODERATE 50, LOW 30, VERY LOW 15, default 50);
however the non-JSON fallback result and the transport-failure sentinel
carry only the four core fields and omit both recovery fields. -/
theorem classifier_field_completion :
    (∀ (raw : String) (r : RawResponse),
      (classifyRisk (Except.ok ⟨raw, some r⟩)).risk_level = r.risk_level.getD "Unknown" ∧
      (classifyRisk (Except.ok ⟨raw, some r⟩)).confidence = r.confidence.getD 0.8 ∧
      (classifyRisk (Except.ok ⟨raw, some r⟩)).reason = r.reason.getD "No explanation provided" ∧
      (classifyRisk (Except.ok ⟨raw, some r⟩)).recommended_action =
        r.recommended_action.getD "Follow standard recovery procedure" ∧
      (classifyRisk (Except.ok ⟨raw, some r⟩)).recovery_probability =
        some (r.recovery_probability.getD
          (inferProbability (strUpper (r.risk_level.getD "Unknown")))) ∧
      (classifyRisk (Except.ok ⟨raw, some r⟩)).recovery_percentage =
        some (r.recovery_percentage.getD
          ((probMap (r.recovery_probability.getD
            (inferProbability (strUpper (r.risk_level.getD "Unknown"))))).getD 50))) ∧
    (∀ raw : String,
      (classifyRisk (Except.ok ⟨raw, none⟩)).recovery_probability = none ∧
      (classifyRisk (Except.ok ⟨raw, none⟩)).recovery_percentage = none) ∧
    (∀ msg : String,
      (classifyRisk (Except.error msg)).recovery_probability = none ∧
      (classifyRisk (Except.error msg)).recovery_percentage = none) ∧
    probMap "VERY HIGH" = some 85 ∧ probMap "HIGH" = some 70 ∧ probMap "MODERATE" = some 50 ∧
    probMap "LOW" = some 30 ∧ probMap "VERY LOW" = some 15 ∧
    inferProbability "LOW" = "HIGH" ∧ inferProbability "MEDIUM" = "MODERATE" ∧
    (∀ s : String, s ≠ "LOW" → s ≠ "MEDIUM" → inferProbability s = "LOW") := by
  refine ⟨?_, fun raw => ⟨rfl, rfl⟩, fun msg => ⟨rfl, rfl⟩, rfl, rfl, rfl, rfl, rfl, rfl,
    rfl, ?_⟩
  · intro raw r
    cases hp : r.recovery_probability <;> cases hq : r.recovery_percentage <;>
      simp [classifyRisk, parseResponse, hp, hq]
  · intro s h₁ h₂
    rw [inferProbability, if_neg h₁, if_neg h₂]

/-- C3 witness: the inference branch applied at a concrete level that is
neither LOW nor MEDIUM, and the completion applied to the empty object. -/
theorem classifier_field_completion_witness :
    inferProbability "HIGH" = "LOW" ∧
    (classifyRisk (Except.ok ⟨"x", some ⟨none, none, none, none, none, none⟩⟩)).risk_level =
      (none : Option String).getD "Unknown" :=
  ⟨classifier_field_completion.2.2.2.2.2.2.2.2.2.2 "HIGH" (by decide) (by decide),
   (classifier_field_completion.1 "x" ⟨none, none, none, none, none, none⟩).1⟩

/-- C4: a decoded JSON response that omits recovery_percentage but carries
recovery_probability HIGH is completed to recovery_percentage 70 by the
fixed probability-to-percentage table. -/
theorem parse_completion_missing_percentage (raw : String) (r : RawResponse)
    (h₁ : r.recovery_percentage = none) (h₂ : r.recovery_probability = some "HIGH") :
    (classifyRisk (Except.ok { raw := raw, decoded := some r })).recovery_percentage =
      some 70 := by
  simp [classifyRisk, parseResponse, h₁, h₂, probMap]

/-- C4 witness: the completion applied to a concrete decoded response. -/
theorem parse_completion_missing_percentage_witness :
    (classifyRisk (Except.ok ⟨"ignored", some sampleDecodedResponse⟩)).recovery_percentage =
      some 70 :=
  parse_completion_missing_percentage "ignored" sampleDecodedResponse rfl rfl

/-- C5: on a response that fails JSON decoding, the parser returns the risk
level of a keyword scan for HIGH, MEDIUM, LOW in that order over the
uppercased raw text (UNKNOWN if none matches), confidence 0.7, the raw text
truncated to 200 characters as reason, and the manual-review action; the
concrete raw output about a HIGH-risk case yields HIGH with
confidence 0.7. -/
theorem nonjson_heuristic_extraction :
    (∀ raw : String,
      (classifyRisk (Except.ok ⟨raw, none⟩)).risk_level =
        (if containsSub (strUpper raw) "HIGH" then "HIGH"
         else if containsSub (strUpper raw) "MEDIUM" then "MEDIUM"
         else if containsSub (strUpper raw) "LOW" then "LOW"
         else "UNKNOWN") ∧
      (classifyRisk (Except.ok ⟨raw, none⟩)).confidence = 0.7 ∧
      (classifyRisk (Except.ok ⟨raw, none⟩)).reason = ⟨raw.data.take 200⟩ ∧
      (classifyRisk (Except.ok ⟨raw, none⟩)).recommended_action =
        "Manual review recommended") ∧
    (classifyRisk (Except.ok ⟨"The case looks HIGH risk overall.", none⟩)).risk_level =
      "HIGH" ∧
    (classifyRisk (Except.ok ⟨"The case looks HIGH risk overall.", none⟩)).confidence =
      0.7 := by
  refine ⟨fun raw => ⟨?_, rfl, rfl, rfl⟩, by decide, rfl⟩
  show extractRiskLevel raw = _
  exact extractRiskLevel_scan raw

/-- C6: a transport or service failure inside classify_risk is caught and
returned as the sentinel result with risk level ERROR, confidence 0.0, the
error message in the reason (prefixed with API Error), and the
manual-review action; the model is a total function, so nothing is raised
to the caller. -/
theorem transport_failure_sentinel (msg : String) :
    classifyRisk (Except.error msg) =
      { risk_level := "ERROR"
        confidence := 0.0
        reason := "API Error: " ++ msg
        recommended_action := "Manual review required"
        recovery_probability := none
        recovery_percentage := none } ∧
    containsSub ("API Error: " ++ msg) msg :=
  ⟨rfl, ⟨"API Error: ".data, [], by simp [String.data_append]⟩⟩

/-- C7: store_decision is append-only: the ledger grows by exactly one
record, the previously stored prefix is unchanged, the new record carries
the decision identifier built from the existing count plus one zero-padded
to five digits, and across a single-writer history started from the empty
ledger the identifiers are i plus one at position i, hence unique and
monotonically increasing. -/
theorem store_decision_append_only :
    (∀ (led : List DecisionRecord) (cid cname ts : String) (raw : RawCase)
        (cls : RiskResult),
      ((storeDecision led cid cname ts raw cls).2).length = led.length + 1 ∧
      ((storeDecision led cid cname ts raw cls).2).take led.length = led ∧
      (storeDecision led cid cname ts raw cls).2 =
        led ++ [(storeDecision led cid cname ts raw cls).1] ∧
      ((storeDecision led cid cname ts raw cls).1).decision_id =
        decisionId (led.length + 1)) ∧
    (∀ (calls : List StoreArgs) (i : Nat) (hi : i < (ledgerHistory calls).length),
      ((ledgerHistory calls).get ⟨i, hi⟩).decision_id = decisionId (i + 1)) ∧
    (∀ (calls : List StoreArgs) (i j : Nat) (hi : i < (ledgerHistory calls).length)
        (hj : j < (ledgerHistory calls).length), i < j →
      ((ledgerHistory calls).get ⟨i, hi⟩).decision_id ≠
        ((ledgerHistory calls).get ⟨j, hj⟩).decision_id) := by
  refine ⟨?_, ledgerHistory_decision_id, ?_⟩
  · intro led cid cname ts raw cls
    refine ⟨by simp [storeDecision], ?_, rfl, rfl⟩
    have h : (storeDecision led cid cname ts raw cls).2 =
        led ++ [(storeDecision led cid cname ts raw cls).1] := rfl
    rw [h, List.take_left]
  · intro calls i j hi hj hij
    rw [ledgerHistory_decision_id calls i hi, ledgerHistory_decision_id calls j hj]
    intro h
    have := decisionId_inj _ _ h
    omega

/-- C7 witness: one store on the empty ledger yields length 1, and the two
records of a concrete two-call history carry distinct identifiers. -/
theorem store_decision_append_only_witness :
    ((storeDecision [] "CASE001" "Acme Traders" "t" sampleCase sampleResult).2).length =
      0 + 1 ∧
    ((ledgerHistory [sampleCall, sampleCall]).get ⟨0, by decide⟩).decision_id ≠
      ((ledgerHistory [sampleCall, sampleCall]).get ⟨1, by decide⟩).decision_id := by
  constructor
  · have h := (store_decision_append_only.1 [] "CASE001" "Acme Traders" "t"
      sampleCase sampleResult).1
    simpa using h
  · exact store_decision_append_only.2.2 [sampleCall, sampleCall] 0 1 (by decide) (by decide)
      (by decide)

/-- C8: statistics on the empty ledger are total 0 with zeroed per-level
counts and no percentage fields, computed without any division; on a
non-empty ledger they are the total, the three per-level counts, and the
percentages rounded to one decimal. -/
theorem get_statistics_spec :
    getStatistics [] =
      { total := 0, high := 0, medium := 0, low := 0,
        high_percentage := none, medium_percentage := none, low_percentage := none } ∧
    (∀ led : List DecisionRecord, led ≠ [] →
      getStatistics led =
        { total := led.length
          high := (getDecisionsByRisk led "HIGH").length
          medium := (getDecisionsByRisk led "MEDIUM").length
          low := (getDecisionsByRisk led "LOW").length
          high_percentage := some (round1
            (((getDecisionsByRisk led "HIGH").length : ℚ) / (led.length : ℚ) * 100))
          medium_percentage := some (round1
            (((getDecisionsByRisk led "MEDIUM").length : ℚ) / (led.length : ℚ) * 100))
          low_percentage := some (round1
            (((getDecisionsByRisk led "LOW").length : ℚ) / (led.length : ℚ) * 100)) }) := by
  refine ⟨rfl, ?_⟩
  intro led h
  have hlen : led.length ≠ 0 := by simpa [List.length_eq_zero] using h
  simp [getStatistics, hlen]

/-- C8 witness: the non-empty branch applied to a concrete one-record
ledger. -/
theorem get_statistics_spec_witness :
    getStatistics [sampleHighRecord] =
      { total := [sampleHighRecord].length
        high := (getDecisionsByRisk [sampleHighRecord] "HIGH").length
        medium := (getDecisionsByRisk [sampleHighRecord] "MEDIUM").length
        low := (getDecisionsByRisk [sampleHighRecord] "LOW").length
        high_percentage := some (round1
          (((getDecisionsByRisk [sampleHighRecord] "HIGH").length : ℚ) /
            (([sampleHighRecord] : List DecisionRecord).length : ℚ) * 100))
        medium_percentage := some (round1
          (((getDecisionsByRisk [sampleHighRecord] "MEDIUM").length : ℚ) /
            (([sampleHighRecord] : List DecisionRecord).length : ℚ) * 100))
        low_percentage := some (round1
          (((getDecisionsByRisk [sampleHighRecord] "LOW").length : ℚ) /
            (([sampleHighRecord] : List DecisionRecord).length : ℚ) * 100)) } :=
  get_statistics_spec.2 [sampleHighRecord] (by simp)

/-- C9: when the requested case identifier is absent from the case source,
process_case reports failure with an error message naming the missing case,
produces no context, no classification and no decision record, leaves the
ledger unchanged, and, being a total function, propagates no exception. -/
theorem process_case_not_found (cases : List RawCase) (led : List DecisionRecord)
    (classify : String → RiskResult) (cid ts : String) (save : Bool)
    (habs : ∀ c ∈ cases, c.case_id ≠ cid) :
    (processCase cases led classify cid ts save).1.success = false ∧
    (processCase cases led classify cid ts save).1.error =
      some ("Case " ++ cid ++ " not found in database") ∧
    (processCase cases led classify cid ts save).1.case_data = none ∧
    (processCase cases led classify cid ts save).1.processed_context = none ∧
    (processCase cases led classify cid ts save).1.classification = none ∧
    (processCase cases led classify cid ts save).1.decision_record = none ∧
    (processCase cases led classify cid ts save).2 = led := by
  have hfind : getCaseById cases cid = none := by
    unfold getCaseById
    rw [List.find?_eq_none]
    intro c hc
    simpa using habs c hc
  simp [processCase, hfind]

/-- C9 witness: a lookup for UNKNOWN_ID against a one-case source. -/
theorem process_case_not_found_witness :
    (processCase [sampleCase] [] (fun _ => sampleResult) "UNKNOWN_ID" "t" true).1.success =
      false ∧
    (processCase [sampleCase] [] (fun _ => sampleResult) "UNKNOWN_ID" "t" true).1.error =
      some ("Case " ++ "UNKNOWN_ID" ++ " not found in database") ∧
    (processCase [sampleCase] [] (fun _ => sampleResult) "UNKNOWN_ID" "t" true).2 = [] := by
  have h := process_case_not_found [sampleCase] [] (fun _ => sampleResult) "UNKNOWN_ID" "t"
    true (by decide)
  exact ⟨h.1, h.2.1, h.2.2.2.2.2.2⟩

/-- C10: the per-level counts reported by get_statistics sum to at most the
reported total, and strictly less whenever some stored record carries a risk
level other than exactly HIGH, MEDIUM or LOW, since such records count in
the total but in no per-level bucket. -/
theorem statistics_counts_bound (led : List DecisionRecord) :
    (getStatistics led).high + (getStatistics led).medium + (getStatistics led).low ≤
      (getStatistics led).total ∧
    (∀ d ∈ led, d.ai_decision.risk_level ≠ "HIGH" → d.ai_decision.risk_level ≠ "MEDIUM" →
      d.ai_decision.risk_level ≠ "LOW" →
      (getStatistics led).high + (getStatistics led).medium + (getStatistics led).low <
        (getStatistics led).total) := by
  have hpart := count_partition led
  by_cases hlen : led.length = 0
  · have hnil : led = [] := List.length_eq_zero.mp hlen
    subst hnil
    exact ⟨le_refl 0, by intro d hd; simp at hd⟩
  · have hstats : (getStatistics led).high = (getDecisionsByRisk led "HIGH").length ∧
        (getStatistics led).medium = (getDecisionsByRisk led "MEDIUM").length ∧
        (getStatistics led).low = (getDecisionsByRisk led "LOW").length ∧
        (getStatistics led).total = led.length := by
      simp [getStatistics, hlen]
    obtain ⟨e1, e2, e3, e4⟩ := hstats
    constructor
    · rw [e1, e2, e3, e4]; omega
    · intro d hd h1 h2 h3
      rw [e1, e2, e3, e4]
      have hpos : 0 < led.countP (fun d => !(d.ai_decision.risk_level == "HIGH" ||
          d.ai_decision.risk_level == "MEDIUM" || d.ai_decision.risk_level == "LOW")) := by
        rw [List.countP_pos_iff]
        exact ⟨d, hd, by simp [h1, h2, h3]⟩
      omega

/-- C10 witness: a one-record ledger whose record is ERROR-tagged has
per-level counts summing strictly below the total. -/
theorem statistics_counts_bound_witness :
    (getStatistics [sampleErrorRecord]).high + (getStatistics [sampleErrorRecord]).medium +
      (getStatistics [sampleErrorRecord]).low < (getStatistics [sampleErrorRecord]).total :=
  (statistics_counts_bound [sampleErrorRecord]).2 sampleErrorRecord (by simp)
    (by decide) (by decide) (by decide)

end DebtRisk
